import Mathlib

/-
  Verification of the provider format adapter of the AWS Bedrock manifold
  pipeline (examples/pipelines/providers/aws_bedrock_manifold_pipeline.py).

  The adapter is embedded shallowly:
  * Python JSON values become the inductive type `Json`; dicts keep insertion
    order as association lists, so serialization order is preserved.
  * Python exceptions raised while walking a response document become the
    error side of `Except PyError`; `PyError` plays the role the spec calls
    `DecodeError`.
  * `json.dumps` is modelled as the identity on the finished document, and
    the empty string the source returns for an unrecognized family becomes
    `none`, so `Pipeline._format_message` is embedded with result type
    `Option Json`.
  * The image download performed by the Anthropic branch (requests.get
    followed by base64 encoding) is an external effect; it is passed in as
    an oracle `fetch : Json → Option String` mapping the image_url value to
    the base64 text of the fetched bytes, `none` meaning the download
    failed with a caught RequestException.
  * A streaming event chunk carries raw bytes; the embedding `Chunk` keeps
    the UTF-8 decoding of those bytes together with the result of
    json.loads on them (`none` when the bytes are not valid JSON), since
    both library calls are external to the adapter.

  CRITICAL note on the Anthropic branch: the source allocates ONE list
  `content`, appends every user text block (and possibly the image block)
  to it, and stores this same list object in every user message, so at
  json.dumps time every user message serializes with the full accumulated
  list.  The embedding reproduces the dumps-time value.
-/

namespace Bedrock

/-- A parsed JSON value.  Object fields keep Python dict insertion order. -/
inductive Json where
  | null : Json
  | bool : Bool → Json
  | num : ℚ → Json
  | str : String → Json
  | arr : List Json → Json
  | obj : List (String × Json) → Json

/-- The Python exceptions that can escape the decoding code paths; the spec
groups all of them under the name DecodeError. -/
inductive PyError where
  | keyError : PyError
  | indexError : PyError
  | typeError : PyError
  | attributeError : PyError
  | jsonError : PyError
deriving DecidableEq

/-- First binding of a key in an association list (Python dict lookup). -/
def lookupField : List (String × Json) → String → Option Json
  | [], _ => none
  | (k, v) :: rest, key => if k = key then some v else lookupField rest key

/-- Python subscript `d[k]` on a JSON value: KeyError when the key is
absent, TypeError when the value is not a dict. -/
def Json.getItem : Json → String → Except PyError Json
  | .obj fs, k =>
      match lookupField fs k with
      | some v => .ok v
      | none => .error .keyError
  | _, _ => .error .typeError

/-- Python subscript `xs[i]` on a JSON value: IndexError when the list is
too short, TypeError when the value is not a list. -/
def Json.getIndex : Json → Nat → Except PyError Json
  | .arr xs, i =>
      match xs.get? i with
      | some v => .ok v
      | none => .error .indexError
  | _, _ => .error .typeError

/-- Python `d.get(k, default)` on a JSON value: AttributeError when the
value is not a dict.  `d.get(k)` is `getDefault d k Json.null` since the
Python default is None. -/
def Json.getDefault : Json → String → Json → Except PyError Json
  | .obj fs, k, d => .ok ((lookupField fs k).getD d)
  | _, _, _ => .error .attributeError

/-- Python truthiness of a JSON value (used on `body.get("image_url")`). -/
def truthy : Json → Bool
  | .null => false
  | .bool b => b
  | .num q => if q = 0 then false else true
  | .str s => if s = "" then false else true
  | .arr xs => !xs.isEmpty
  | .obj fs => !fs.isEmpty

/-- `body.get(k, default)` where `body` is the request options dict; the
dict itself is a plain association list. -/
def bodyGet (body : List (String × Json)) (k : String) (d : Json) : Json :=
  (lookupField body k).getD d

/-- One uniform chat turn: the source reads `message["role"]` and
`message["content"]` from each element of `messages`. -/
structure Message where
  role : String
  content : String

/-- `needle in hay` on character lists: Python substring containment. -/
def hasSub (needle : List Char) : List Char → Bool
  | [] => needle.isEmpty
  | c :: t => needle.isPrefixOf (c :: t) || hasSub needle t

/-- Python `marker in model` for strings. -/
def strContains (hay needle : String) : Bool :=
  hasSub needle.toList hay.toList

/-- Amazon branch prompt: user turns only, each content followed by one
space (`prompt += f"..."` over the message list). -/
def amazonPrompt (messages : List Message) : String :=
  messages.foldl (fun acc m => if m.role = "user" then acc ++ m.content ++ " " else acc) ""

/-- AI21 / Cohere / Meta branches all build the same prompt:
role, colon-space, content, newline, concatenated over every turn. -/
def roleTaggedPrompt (messages : List Message) : String :=
  messages.foldl (fun acc m => acc ++ m.role ++ ": " ++ m.content ++ "\n") ""

/-- Mistral branch prompt: user turns wrapped in [INST] tags, assistant
turns appended verbatim, other roles dropped. -/
def mistralPrompt (messages : List Message) : String :=
  messages.foldl
    (fun acc m =>
      if m.role = "user" then acc ++ "[INST] " ++ m.content ++ " [/INST]"
      else if m.role = "assistant" then acc ++ m.content
      else acc) ""

/-- The Amazon request payload. -/
def amazonPayload (messages : List Message) (body : List (String × Json)) : Json :=
  .obj [("inputText", .str (amazonPrompt messages)),
        ("textGenerationConfig",
          .obj [("maxTokenCount", bodyGet body "max_tokens" (Json.num 2048)),
                ("stopSequences", .arr []),
                ("temperature", bodyGet body "temperature" (Json.num (1/2)))])]

/-- The image content block appended to `content` before the message loop:
present exactly when the message list is non-empty, its last turn has role
user, `body.get("image_url")` is truthy, and the download succeeds. -/
def anthropicImageBlock (messages : List Message) (body : List (String × Json))
    (fetch : Json → Option String) : List Json :=
  match messages.getLast? with
  | none => []
  | some last =>
      if last.role = "user" ∧ truthy (bodyGet body "image_url" Json.null) = true then
        match fetch (bodyGet body "image_url" Json.null) with
        | some data =>
            [.obj [("type", .str "image"),
                   ("source", .obj [("type", .str "base64"),
                                    ("media_type", .str "image/jpeg"),
                                    ("data", .str data)])]]
        | none => []
      else []

/-- The text blocks appended to the single shared `content` list: one per
user turn, in order. -/
def anthropicUserTexts (messages : List Message) : List Json :=
  messages.filterMap fun m =>
    if m.role = "user" then some (.obj [("type", .str "text"), ("text", .str m.content)])
    else none

/-- The value of the shared `content` list at json.dumps time. -/
def anthropicContent (messages : List Message) (body : List (String × Json))
    (fetch : Json → Option String) : List Json :=
  anthropicImageBlock messages body fetch ++ anthropicUserTexts messages

/-- The `messages` array of the Anthropic payload.  Every user message
references the one shared `content` list, so each serializes with the
whole accumulated list; assistant messages carry their content string;
other roles are dropped. -/
def anthropicMessages (messages : List Message) (body : List (String × Json))
    (fetch : Json → Option String) : List Json :=
  messages.filterMap fun m =>
    if m.role = "user" then
      some (.obj [("role", .str "user"), ("content", .arr (anthropicContent messages body fetch))])
    else if m.role = "assistant" then
      some (.obj [("role", .str "assistant"), ("content", .str m.content)])
    else none

/-- The Anthropic request payload. -/
def anthropicPayload (messages : List Message) (body : List (String × Json))
    (fetch : Json → Option String) : Json :=
  .obj [("anthropic_version", .str "bedrock-2023-05-31"),
        ("max_tokens", bodyGet body "max_tokens" (Json.num 2048)),
        ("messages", .arr (anthropicMessages messages body fetch)),
        ("temperature", bodyGet body "temperature" (Json.num (1/2)))]

/-- The AI21 request payload. -/
def ai21Payload (messages : List Message) (body : List (String × Json)) : Json :=
  .obj [("prompt", .str (roleTaggedPrompt messages)),
        ("temperature", bodyGet body "temperature" (Json.num (1/2))),
        ("maxTokens", bodyGet body "max_tokens" (Json.num 2048))]

/-- The Cohere request payload. -/
def coherePayload (messages : List Message) (body : List (String × Json)) : Json :=
  .obj [("prompt", .str (roleTaggedPrompt messages)),
        ("temperature", bodyGet body "temperature" (Json.num (1/2))),
        ("max_tokens", bodyGet body "max_tokens" (Json.num 2048))]

/-- The Meta request payload. -/
def metaPayload (messages : List Message) (body : List (String × Json)) : Json :=
  .obj [("prompt", .str (roleTaggedPrompt messages)),
        ("temperature", bodyGet body "temperature" (Json.num (1/2))),
        ("max_gen_len", bodyGet body "max_tokens" (Json.num 2048))]

/-- The Mistral request payload. -/
def mistralPayload (messages : List Message) (body : List (String × Json)) : Json :=
  .obj [("prompt", .str (mistralPrompt messages)),
        ("max_tokens", bodyGet body "max_tokens" (Json.num 2048)),
        ("temperature", bodyGet body "temperature" (Json.num (1/2)))]

/-- `Pipeline._format_message`: the substring if/elif chain over the model
identifier; the final `return ""` (no payload) becomes `none`. -/
def format_message (model : String) (messages : List Message)
    (body : List (String × Json)) (fetch : Json → Option String) : Option Json :=
  if strContains model "amazon" then some (amazonPayload messages body)
  else if strContains model "anthropic" then some (anthropicPayload messages body fetch)
  else if strContains model "ai21" then some (ai21Payload messages body)
  else if strContains model "cohere" then some (coherePayload messages body)
  else if strContains model "meta" then some (metaPayload messages body)
  else if strContains model "mistral" then some (mistralPayload messages body)
  else none

/-- The closed enumeration of provider families. -/
inductive Family where
  | amazon : Family
  | anthropic : Family
  | ai21 : Family
  | cohere : Family
  | meta : Family
  | mistral : Family
  | unknown : Family
deriving DecidableEq

/-- The marker token tested by the if/elif chains. -/
def marker : Family → String
  | .amazon => "amazon"
  | .anthropic => "anthropic"
  | .ai21 => "ai21"
  | .cohere => "cohere"
  | .meta => "meta"
  | .mistral => "mistral"
  | .unknown => ""

/-- The six known families in the priority order of the if/elif chains. -/
def familyChain : List Family :=
  [.amazon, .anthropic, .ai21, .cohere, .meta, .mistral]

/-- The classification the if/elif chains implement: substring containment
tests in the fixed chain order, first match wins. -/
def classify (model : String) : Family :=
  if strContains model "amazon" then .amazon
  else if strContains model "anthropic" then .anthropic
  else if strContains model "ai21" then .ai21
  else if strContains model "cohere" then .cohere
  else if strContains model "meta" then .meta
  else if strContains model "mistral" then .mistral
  else .unknown

/-- The families whose marker occurs in the model identifier, in chain
order. -/
def markersIn (model : String) : List Family :=
  familyChain.filter fun f => strContains model (marker f)

/-- The per-family formatter: which payload each branch of
`_format_message` serializes. -/
def formatFor (f : Family) (messages : List Message) (body : List (String × Json))
    (fetch : Json → Option String) : Option Json :=
  match f with
  | .amazon => some (amazonPayload messages body)
  | .anthropic => some (anthropicPayload messages body fetch)
  | .ai21 => some (ai21Payload messages body)
  | .cohere => some (coherePayload messages body)
  | .meta => some (metaPayload messages body)
  | .mistral => some (mistralPayload messages body)
  | .unknown => none

/-- `Pipeline._extract_output`: the per-family field path into the parsed
response document, with the same substring if/elif chain. -/
def extract_output (jsondata : Json) (model : String) : Except PyError Json :=
  if strContains model "amazon" then do
    let r ← jsondata.getItem "results"
    let r0 ← r.getIndex 0
    r0.getItem "outputText"
  else if strContains model "anthropic" then do
    let c ← jsondata.getItem "content"
    let c0 ← c.getIndex 0
    c0.getItem "text"
  else if strContains model "ai21" then do
    let c ← jsondata.getDefault "completions" Json.null
    let c0 ← c.getIndex 0
    let d ← c0.getDefault "data" Json.null
    d.getDefault "text" Json.null
  else if strContains model "cohere" then do
    let g ← jsondata.getItem "generations"
    let g0 ← g.getIndex 0
    g0.getItem "text"
  else if strContains model "meta" then
    jsondata.getItem "generation"
  else if strContains model "mistral" then do
    let o ← jsondata.getItem "outputs"
    let o0 ← o.getIndex 0
    o0.getItem "text"
  else
    .ok (.str "")

/-- The per-family whole-response extractor. -/
def extractFor (f : Family) (jsondata : Json) : Except PyError Json :=
  match f with
  | .amazon => do
      let r ← jsondata.getItem "results"
      let r0 ← r.getIndex 0
      r0.getItem "outputText"
  | .anthropic => do
      let c ← jsondata.getItem "content"
      let c0 ← c.getIndex 0
      c0.getItem "text"
  | .ai21 => do
      let c ← jsondata.getDefault "completions" Json.null
      let c0 ← c.getIndex 0
      let d ← c0.getDefault "data" Json.null
      d.getDefault "text" Json.null
  | .cohere => do
      let g ← jsondata.getItem "generations"
      let g0 ← g.getIndex 0
      g0.getItem "text"
  | .meta => jsondata.getItem "generation"
  | .mistral => do
      let o ← jsondata.getItem "outputs"
      let o0 ← o.getIndex 0
      o0.getItem "text"
  | .unknown => .ok (.str "")

/-- One raw streaming event chunk: `text` is the UTF-8 decoding of the
chunk bytes, `parsed` the result of json.loads on them (`none` when the
bytes are not valid JSON). -/
structure Chunk where
  text : String
  parsed : Option Json

/-- The delta one event contributes in `Pipeline._stream_response`, by
provider token branch; an error aborts the generator. -/
def eventDelta (provider : String) (c : Chunk) : Except PyError Json :=
  if provider = "anthropic" then
    match c.parsed with
    | none => .error .jsonError
    | some data => data.getDefault "completion" (.str "")
  else if provider = "mistral" then
    match c.parsed with
    | none => .error .jsonError
    | some gen => do
        let outs ← gen.getDefault "outputs" (.arr [.obj []])
        let o0 ← outs.getIndex 0
        let line ← o0.getDefault "text" (.str "")
        pure (match line with
              | .str s => if s = "\n" then .str "" else .str s
              | other => other)
  else if provider = "cohere" then
    match c.parsed with
    | none => .error .jsonError
    | some data => data.getDefault "text" (.str "")
  else if provider = "meta" then
    match c.parsed with
    | none => .error .jsonError
    | some data => data.getDefault "generation" (.str "")
  else
    .ok (.str c.text)

/-- `Pipeline._stream_response` as seen by a consumer that keeps pulling:
the deltas yielded before the generator finishes or dies, together with
the exception that killed it, if any. -/
def streamDeltas (provider : String) : List Chunk → List Json × Option PyError
  | [] => ([], none)
  | c :: rest =>
      match eventDelta provider c with
      | .error e => ([], some e)
      | .ok d => ((d :: (streamDeltas provider rest).1), (streamDeltas provider rest).2)

/-- `model_id.split(".")[0]`: the provider token `pipe` hands to
`_stream_response`, i.e. the characters before the first dot. -/
def providerToken (model_id : String) : String :=
  ⟨model_id.toList.takeWhile (fun c => c ≠ '.')⟩

/-- Spec-side restatement for the Amazon prompt rule: keep user turns only
and concatenate each user content followed by a single space. -/
def userSpacePrompt : List Message → String
  | [] => ""
  | m :: rest => (if m.role = "user" then m.content ++ " " else "") ++ userSpacePrompt rest

/-- The four provider tokens on which `_stream_response` has a dedicated
branch; every other token takes the verbatim default branch. -/
def streamKeys : List String :=
  ["anthropic", "mistral", "cohere", "meta"]

/- ------------------------------------------------------------------ -/
/- Helper lemmas.                                                      -/
/- ------------------------------------------------------------------ -/

theorem prefixImpIsPrefixOf : ∀ {l₁ l₂ : List Char}, l₁ <+: l₂ → l₁.isPrefixOf l₂ = true := by
  intro l₁
  induction l₁ with
  | nil => intro l₂ _; cases l₂ <;> rfl
  | cons a t ih =>
      intro l₂ h
      obtain ⟨r, hr⟩ := h
      subst hr
      simp [List.isPrefixOf, ih ⟨r, rfl⟩]

theorem prefixImpHasSub {n l : List Char} (h : n <+: l) : hasSub n l = true := by
  cases l with
  | nil =>
      have hn : n = [] := List.prefix_nil.mp h
      subst hn; rfl
  | cons c t => simp [hasSub, prefixImpIsPrefixOf h]

/-- The provider token handed to `_stream_response` is always a substring
of the model identifier (it is a prefix of it). -/
theorem strContains_providerToken (model : String) :
    strContains model (providerToken model) = true := by
  have h : (model.toList.takeWhile (fun c => c ≠ '.')) <+: model.toList :=
    List.takeWhile_prefix _
  exact prefixImpHasSub h

/-- `_format_message` dispatches exactly as the classification chain. -/
theorem format_message_classify (model : String) (messages : List Message)
    (body : List (String × Json)) (fetch : Json → Option String) :
    format_message model messages body fetch = formatFor (classify model) messages body fetch := by
  unfold format_message classify formatFor
  split_ifs <;> rfl

/-- `_extract_output` dispatches exactly as the classification chain. -/
theorem extract_output_classify (jsondata : Json) (model : String) :
    extract_output jsondata model = extractFor (classify model) jsondata := by
  unfold extract_output classify extractFor
  split_ifs <;> rfl

/-- When no family marker occurs in the identifier, every containment flag
of the chain is false. -/
theorem flag_false_of_markersIn_nil {model : String} (h : markersIn model = [])
    {g : Family} (hg : g ∈ familyChain) : strContains model (marker g) = false := by
  rw [Bool.eq_false_iff]
  intro hs
  have hmem : g ∈ markersIn model := List.mem_filter.mpr ⟨hg, hs⟩
  rw [h] at hmem
  cases hmem

theorem classify_of_markersIn_nil {model : String} (h : markersIn model = []) :
    classify model = .unknown := by
  have h1 := flag_false_of_markersIn_nil h (g := .amazon) (by simp [familyChain])
  have h2 := flag_false_of_markersIn_nil h (g := .anthropic) (by simp [familyChain])
  have h3 := flag_false_of_markersIn_nil h (g := .ai21) (by simp [familyChain])
  have h4 := flag_false_of_markersIn_nil h (g := .cohere) (by simp [familyChain])
  have h5 := flag_false_of_markersIn_nil h (g := .meta) (by simp [familyChain])
  have h6 := flag_false_of_markersIn_nil h (g := .mistral) (by simp [familyChain])
  simp [classify, marker] at h1 h2 h3 h4 h5 h6
  simp [classify, h1, h2, h3, h4, h5, h6]

/-- When exactly one family marker occurs in the identifier, each chain
flag holds exactly for that family. -/
theorem flag_iff_of_markersIn_singleton {model : String} {f : Family}
    (h : markersIn model = [f]) {g : Family} (hg : g ∈ familyChain) :
    strContains model (marker g) = true ↔ g = f := by
  constructor
  · intro hs
    have hmem : g ∈ markersIn model := List.mem_filter.mpr ⟨hg, hs⟩
    rw [h] at hmem
    simpa using hmem
  · intro he
    subst he
    have hmem : g ∈ markersIn model := by rw [h]; exact List.mem_cons_self _ _
    exact (List.mem_filter.mp hmem).2

theorem classify_of_markersIn_singleton {model : String} {f : Family}
    (h : markersIn model = [f]) : classify model = f := by
  have hmemf : f ∈ familyChain := by
    have : f ∈ markersIn model := by rw [h]; exact List.mem_cons_self _ _
    exact List.mem_of_mem_filter this
  have flag : ∀ g, g ∈ familyChain → (strContains model (marker g) = true ↔ g = f) :=
    fun g hg => flag_iff_of_markersIn_singleton h hg
  have hAm := flag .amazon (by simp [familyChain])
  have hAn := flag .anthropic (by simp [familyChain])
  have hAi := flag .ai21 (by simp [familyChain])
  have hCo := flag .cohere (by simp [familyChain])
  have hMe := flag .meta (by simp [familyChain])
  have hMi := flag .mistral (by simp [familyChain])
  simp only [marker] at hAm hAn hAi hCo hMe hMi
  cases f with
  | amazon =>
      have t1 : strContains model "amazon" = true := hAm.mpr rfl
      simp [classify, t1]
  | anthropic =>
      have t1 : strContains model "amazon" = false := by
        rw [Bool.eq_false_iff]; intro hs; exact absurd (hAm.mp hs) (by decide)
      have t2 : strContains model "anthropic" = true := hAn.mpr rfl
      simp [classify, t1, t2]
  | ai21 =>
      have t1 : strContains model "amazon" = false := by
        rw [Bool.eq_false_iff]; intro hs; exact absurd (hAm.mp hs) (by decide)
      have t2 : strContains model "anthropic" = false := by
        rw [Bool.eq_false_iff]; intro hs; exact absurd (hAn.mp hs) (by decide)
      have t3 : strContains model "ai21" = true := hAi.mpr rfl
      simp [classify, t1, t2, t3]
  | cohere =>
      have t1 : strContains model "amazon" = false := by
        rw [Bool.eq_false_iff]; intro hs; exact absurd (hAm.mp hs) (by decide)
      have t2 : strContains model "anthropic" = false := by
        rw [Bool.eq_false_iff]; intro hs; exact absurd (hAn.mp hs) (by decide)
      have t3 : strContains model "ai21" = false := by
        rw [Bool.eq_false_iff]; intro hs; exact absurd (hAi.mp hs) (by decide)
      have t4 : strContains model "cohere" = true := hCo.mpr rfl
      simp [classify, t1, t2, t3, t4]
  | meta =>
      have t1 : strContains model "amazon" = false := by
        rw [Bool.eq_false_iff]; intro hs; exact absurd (hAm.mp hs) (by decide)
      have t2 : strContains model "anthropic" = false := by
        rw [Bool.eq_false_iff]; intro hs; exact absurd (hAn.mp hs) (by decide)
      have t3 : strContains model "ai21" = false := by
        rw [Bool.eq_false_iff]; intro hs; exact absurd (hAi.mp hs) (by decide)
      have t4 : strContains model "cohere" = false := by
        rw [Bool.eq_false_iff]; intro hs; exact absurd (hCo.mp hs) (by decide)
      have t5 : strContains model "meta" = true := hMe.mpr rfl
      simp [classify, t1, t2, t3, t4, t5]
  | mistral =>
      have t1 : strContains model "amazon" = false := by
        rw [Bool.eq_false_iff]; intro hs; exact absurd (hAm.mp hs) (by decide)
      have t2 : strContains model "anthropic" = false := by
        rw [Bool.eq_false_iff]; intro hs; exact absurd (hAn.mp hs) (by decide)
      have t3 : strContains model "ai21" = false := by
        rw [Bool.eq_false_iff]; intro hs; exact absurd (hAi.mp hs) (by decide)
      have t4 : strContains model "cohere" = false := by
        rw [Bool.eq_false_iff]; intro hs; exact absurd (hCo.mp hs) (by decide)
      have t5 : strContains model "meta" = false := by
        rw [Bool.eq_false_iff]; intro hs; exact absurd (hMe.mp hs) (by decide)
      have t6 : strContains model "mistral" = true := hMi.mpr rfl
      simp [classify, t1, t2, t3, t4, t5, t6]
  | unknown => simp [familyChain] at hmemf

/-- Any provider token outside the four streaming keys takes the default
branch: the bytes of each chunk are decoded as UTF-8 and yielded verbatim. -/
theorem streamDeltas_default (tok : String) (events : List Chunk)
    (h1 : tok ≠ "anthropic") (h2 : tok ≠ "mistral") (h3 : tok ≠ "cohere") (h4 : tok ≠ "meta") :
    streamDeltas tok events = (events.map (fun c => Json.str c.text), none) := by
  induction events with
  | nil => rfl
  | cons c rest ih => simp [streamDeltas, eventDelta, h1, h2, h3, h4, ih]

/-- If the model identifier contains no occurrence of one of the streaming
keys, the streaming provider token cannot equal that key. -/
theorem providerToken_ne_of_not_contains {model k : String}
    (h : strContains model k = false) : providerToken model ≠ k := by
  intro he
  have hc := strContains_providerToken model
  rw [he] at hc
  rw [h] at hc
  cases hc

/-- The Amazon prompt accumulator unrolled against the spec-side
recursion. -/
theorem amazonPrompt_foldl (msgs : List Message) (acc : String) :
    msgs.foldl (fun acc m => if m.role = "user" then acc ++ m.content ++ " " else acc) acc
      = acc ++ userSpacePrompt msgs := by
  induction msgs generalizing acc with
  | nil => simp [userSpacePrompt]
  | cons m rest ih =>
      simp only [List.foldl, userSpacePrompt]
      by_cases hm : m.role = "user"
      · rw [if_pos hm, if_pos hm, ih]
        simp [String.append_assoc]
      · rw [if_neg hm, if_neg hm, ih]
        simp

theorem amazonPrompt_eq_userSpacePrompt (msgs : List Message) :
    amazonPrompt msgs = userSpacePrompt msgs := by
  have h := amazonPrompt_foldl msgs ""
  simpa [amazonPrompt] using h

theorem except_ok_bind {ε : Type u} {α β : Type v} (a : α) (f : α → Except ε β) :
    (Except.ok a >>= f) = f a := rfl

/- ------------------------------------------------------------------ -/
/- Claim theorems.                                                     -/
/- ------------------------------------------------------------------ -/

/-- C1: evaluating the formatter at an Anthropic model with two user turns
and a successfully downloaded image shows the code violating the claim:
because the source appends every text block to one shared content list and
stores that same list in every user message, BOTH user turns serialize
with the image block followed by both text blocks, so the content list of
the first user turn also holds the image block and the text of the second
turn, instead of each turn holding only its own blocks. -/
theorem c1_anthropic_shared_content_bug :
    format_message "anthropic.claude-3" [⟨"user", "a"⟩, ⟨"user", "b"⟩]
        [("image_url", Json.str "http://x/img")] (fun _ => some "IMGDATA")
      = some (Json.obj
          [("anthropic_version", .str "bedrock-2023-05-31"),
           ("max_tokens", .num 2048),
           ("messages", .arr
             [.obj [("role", .str "user"), ("content", .arr
                [.obj [("type", .str "image"),
                       ("source", .obj [("type", .str "base64"),
                                        ("media_type", .str "image/jpeg"),
                                        ("data", .str "IMGDATA")])],
                 .obj [("type", .str "text"), ("text", .str "a")],
                 .obj [("type", .str "text"), ("text", .str "b")]])],
              .obj [("role", .str "user"), ("content", .arr
                [.obj [("type", .str "image"),
                       ("source", .obj [("type", .str "base64"),
                                        ("media_type", .str "image/jpeg"),
                                        ("data", .str "IMGDATA")])],
                 .obj [("type", .str "text"), ("text", .str "a")],
                 .obj [("type", .str "text"), ("text", .str "b")]])]]),
           ("temperature", .num (1/2))]) := rfl

/-- C2 counterexample: in the Anthropic streaming branch the event
sequence good, malformed, good dies at the malformed event — only the
delta of the first event is yielded, the stream ends with the decode
error, and the delta of the well-formed event after the malformed one is
never emitted, contradicting the claim that iteration continues. -/
theorem c2_stream_malformed_counterexample :
    streamDeltas "anthropic"
        [⟨"", some (.obj [("completion", .str "a")])⟩,
         ⟨"oops", none⟩,
         ⟨"", some (.obj [("completion", .str "b")])⟩]
      = ([Json.str "a"], some PyError.jsonError) ∧
    Json.str "b" ∉ (streamDeltas "anthropic"
        [⟨"", some (.obj [("completion", .str "a")])⟩,
         ⟨"oops", none⟩,
         ⟨"", some (.obj [("completion", .str "b")])⟩]).1 := by
  refine ⟨rfl, ?_⟩
  intro hmem
  rw [show (streamDeltas "anthropic"
        [⟨"", some (.obj [("completion", .str "a")])⟩,
         ⟨"oops", none⟩,
         ⟨"", some (.obj [("completion", .str "b")])⟩]).1 = [Json.str "a"] from rfl] at hmem
  have hba : Json.str "b" = Json.str "a" := List.mem_singleton.mp hmem
  have : ("b" : String) = "a" := by injection hba
  exact absurd this (by decide)

/-- C2 amended: in the four JSON-decoding streaming branches a malformed
event terminates the stream: the deltas of the well-formed events before
it are emitted in order, then iteration stops with the JSON decode error,
and no later event contributes a delta. -/
theorem c2_stream_stops_at_malformed (provider : String) (pre post : List Chunk) (bad : Chunk)
    (hprov : provider = "anthropic" ∨ provider = "mistral" ∨ provider = "cohere" ∨ provider = "meta")
    (hbad : bad.parsed = none)
    (hpre : (streamDeltas provider pre).2 = none) :
    streamDeltas provider (pre ++ bad :: post)
      = ((streamDeltas provider pre).1, some PyError.jsonError) := by
  have hbadDelta : eventDelta provider bad = .error .jsonError := by
    rcases hprov with h | h | h | h <;> subst h <;> simp [eventDelta, hbad]
  revert hpre
  induction pre with
  | nil =>
      intro _
      simp [streamDeltas, hbadDelta]
  | cons c cs ih =>
      intro hpre
      cases hc : eventDelta provider c with
      | error e =>
          exfalso
          simp [streamDeltas, hc] at hpre
      | ok d =>
          have hpre2 : (streamDeltas provider cs).2 = none := by
            simpa [streamDeltas, hc] using hpre
          have hrec := ih hpre2
          simp [streamDeltas, hc, hrec]

/-- Witness for the amended C2 at a concrete Cohere stream. -/
theorem c2_stream_stops_at_malformed_witness :
    streamDeltas "cohere"
        [⟨"", some (.obj [("text", .str "x")])⟩,
         ⟨"bad", none⟩,
         ⟨"", some (.obj [("text", .str "y")])⟩]
      = ([Json.str "x"], some PyError.jsonError) :=
  c2_stream_stops_at_malformed "cohere"
    [⟨"", some (.obj [("text", .str "x")])⟩]
    [⟨"", some (.obj [("text", .str "y")])⟩]
    ⟨"bad", none⟩ (Or.inr (Or.inr (Or.inl rfl))) rfl rfl

/-- C3: a model identifier containing exactly one family marker is
classified as that family wherever the marker occurs, and both the
formatter and the whole-response extractor apply that family; with no
marker present, formatting yields the empty payload and extraction the
empty string, and both are total. -/
theorem c3_unique_marker_dispatch (model : String) (messages : List Message)
    (body : List (String × Json)) (fetch : Json → Option String) (doc : Json) :
    (∀ f : Family, markersIn model = [f] →
        classify model = f ∧
        format_message model messages body fetch = formatFor f messages body fetch ∧
        extract_output doc model = extractFor f doc) ∧
    (markersIn model = [] →
        format_message model messages body fetch = none ∧
        extract_output doc model = Except.ok (Json.str "")) := by
  constructor
  · intro f h
    have hc := classify_of_markersIn_singleton h
    exact ⟨hc, by rw [format_message_classify, hc], by rw [extract_output_classify, hc]⟩
  · intro h
    have hc := classify_of_markersIn_nil h
    constructor
    · rw [format_message_classify, hc]; rfl
    · rw [extract_output_classify, hc]; rfl

/-- Witness for C3 at a marker in the middle of the identifier and at a
marker-free identifier. -/
theorem c3_unique_marker_dispatch_witness :
    classify "eu.anthropic.claude-v2" = Family.anthropic ∧
    extract_output (Json.obj []) "foo.bar" = Except.ok (Json.str "") := by
  constructor
  · exact ((c3_unique_marker_dispatch "eu.anthropic.claude-v2" [] [] (fun _ => none)
      Json.null).1 Family.anthropic rfl).1
  · exact ((c3_unique_marker_dispatch "foo.bar" [] [] (fun _ => none)
      (Json.obj [])).2 rfl).2

/-- C4: in the Mistral streaming branch, an event whose decoded
outputs[0].text is exactly the one-character newline string yields the
empty-string delta, and an event whose decoded text is any other value
yields that value unchanged. -/
theorem c4_mistral_stream_newline (c : Chunk) (gen outs o0 line : Json)
    (hp : c.parsed = some gen)
    (houts : gen.getDefault "outputs" (Json.arr [Json.obj []]) = Except.ok outs)
    (ho0 : outs.getIndex 0 = Except.ok o0)
    (hline : o0.getDefault "text" (Json.str "") = Except.ok line) :
    (line = Json.str "\n" → streamDeltas "mistral" [c] = ([Json.str ""], none)) ∧
    (line ≠ Json.str "\n" → streamDeltas "mistral" [c] = ([line], none)) := by
  constructor
  · intro he
    subst he
    have hdelta : eventDelta "mistral" c = Except.ok (Json.str "") := by
      simp [eventDelta, hp, houts, except_ok_bind, ho0, hline, Except.map_ok]
    simp [streamDeltas, hdelta]
  · intro hne
    have hdelta : eventDelta "mistral" c = Except.ok line := by
      simp [eventDelta, hp, houts, except_ok_bind, ho0, hline, Except.map_ok]
      cases line with
      | str s =>
          have hs : s ≠ "\n" := fun h => hne (by rw [h])
          simp [hs]
      | null => simp
      | bool b => simp
      | num q => simp
      | arr xs => simp
      | obj fs => simp
    simp [streamDeltas, hdelta]

/-- Witness for C4 at a concrete newline event. -/
theorem c4_mistral_stream_newline_witness :
    streamDeltas "mistral"
        [⟨"nl", some (Json.obj [("outputs", Json.arr [Json.obj [("text", Json.str "\n")]])])⟩]
      = ([Json.str ""], none) :=
  (c4_mistral_stream_newline
      ⟨"nl", some (Json.obj [("outputs", Json.arr [Json.obj [("text", Json.str "\n")]])])⟩
      (Json.obj [("outputs", Json.arr [Json.obj [("text", Json.str "\n")]])])
      (Json.arr [Json.obj [("text", Json.str "\n")]])
      (Json.obj [("text", Json.str "\n")])
      (Json.str "\n") rfl rfl rfl rfl).1 rfl

/-- C5 counterexample: in the AI21 branch a document whose
completions[0].data object lacks the text field makes the extractor
return the Python None (here Json.null) instead of signalling a decode
error, so a missing field at the expected path does NOT always raise. -/
theorem c5_ai21_missing_text_counterexample :
    extract_output (Json.obj [("completions", Json.arr [Json.obj [("data", Json.obj [])]])]) "ai21"
      = Except.ok Json.null := rfl

/-- C5 amended: for every known family the extractor returns the string at
the expected field path when the document has that shape, and a missing
or ill-typed intermediate step raises a decode error — with the one
exception that the final AI21 text lookup uses a defaulting access, so an
AI21 document whose completions[0].data lacks the text key yields null
instead of an error; the two Anthropic examples behave as claimed. -/
theorem c5_extract_paths_amended :
    (∀ s : String, extract_output (Json.obj [("results", Json.arr [Json.obj [("outputText", Json.str s)]])]) "amazon" = Except.ok (Json.str s)) ∧
    (∀ s : String, extract_output (Json.obj [("content", Json.arr [Json.obj [("text", Json.str s)]])]) "anthropic" = Except.ok (Json.str s)) ∧
    (∀ s : String, extract_output (Json.obj [("completions", Json.arr [Json.obj [("data", Json.obj [("text", Json.str s)])]])]) "ai21" = Except.ok (Json.str s)) ∧
    (∀ s : String, extract_output (Json.obj [("generations", Json.arr [Json.obj [("text", Json.str s)]])]) "cohere" = Except.ok (Json.str s)) ∧
    (∀ s : String, extract_output (Json.obj [("generation", Json.str s)]) "meta" = Except.ok (Json.str s)) ∧
    (∀ s : String, extract_output (Json.obj [("outputs", Json.arr [Json.obj [("text", Json.str s)]])]) "mistral" = Except.ok (Json.str s)) ∧
    extract_output (Json.obj [("content", Json.arr [Json.obj [("text", Json.str "ok")]])]) "anthropic" = Except.ok (Json.str "ok") ∧
    extract_output (Json.obj [("content", Json.arr [])]) "anthropic" = Except.error PyError.indexError ∧
    extract_output (Json.obj []) "amazon" = Except.error PyError.keyError ∧
    extract_output (Json.obj []) "cohere" = Except.error PyError.keyError ∧
    extract_output (Json.obj []) "meta" = Except.error PyError.keyError ∧
    extract_output (Json.obj []) "mistral" = Except.error PyError.keyError ∧
    extract_output (Json.obj []) "ai21" = Except.error PyError.typeError ∧
    extract_output (Json.obj [("completions", Json.arr [Json.obj [("data", Json.obj [])]])]) "ai21" = Except.ok Json.null := by
  exact ⟨fun s => rfl, fun s => rfl, fun s => rfl, fun s => rfl, fun s => rfl, fun s => rfl,
    rfl, rfl, rfl, rfl, rfl, rfl, rfl, rfl⟩

/-- C6 counterexample: the identifier foo.bar matches no family, yet
streaming one raw chunk emits its UTF-8 text verbatim through the default
branch — the stream is not empty. -/
theorem c6_unknown_stream_counterexample :
    markersIn "foo.bar" = [] ∧
    streamDeltas (providerToken "foo.bar") [⟨"hello", none⟩] = ([Json.str "hello"], none) ∧
    ([Json.str "hello"] : List Json) ≠ [] := by
  refine ⟨rfl, rfl, by simp⟩

/-- C6 amended: for a model identifier matching no known family, streaming
does not yield an empty stream — the default branch emits each chunk as a
verbatim UTF-8 text delta, one delta per event, so the output is empty
only when the event sequence is. -/
theorem c6_unknown_stream_verbatim (model : String) (events : List Chunk)
    (h : markersIn model = []) :
    streamDeltas (providerToken model) events
      = (events.map (fun c => Json.str c.text), none) := by
  have h1 := providerToken_ne_of_not_contains
    (flag_false_of_markersIn_nil h (g := .anthropic) (by simp [familyChain]))
  have h2 := providerToken_ne_of_not_contains
    (flag_false_of_markersIn_nil h (g := .mistral) (by simp [familyChain]))
  have h3 := providerToken_ne_of_not_contains
    (flag_false_of_markersIn_nil h (g := .cohere) (by simp [familyChain]))
  have h4 := providerToken_ne_of_not_contains
    (flag_false_of_markersIn_nil h (g := .meta) (by simp [familyChain]))
  exact streamDeltas_default _ events h1 h2 h3 h4

/-- Witness for the amended C6 at a concrete marker-free identifier. -/
theorem c6_unknown_stream_verbatim_witness :
    streamDeltas (providerToken "foo.baz") [⟨"x", none⟩, ⟨"y", some Json.null⟩]
      = ([Json.str "x", Json.str "y"], none) :=
  c6_unknown_stream_verbatim "foo.baz" [⟨"x", none⟩, ⟨"y", some Json.null⟩] rfl

/-- C7: the Amazon formatter keeps only user turns and concatenates each
user content followed by one space; on the three-turn example the prompt
is exactly hi-space-there-space and the full serialized payload carries
it in the inputText field. -/
theorem c7_amazon_prompt (messages : List Message) :
    amazonPrompt messages = userSpacePrompt messages ∧
    amazonPrompt [⟨"user", "hi"⟩, ⟨"assistant", "hello"⟩, ⟨"user", "there"⟩] = "hi there " ∧
    format_message "amazon.titan-text-express-v1"
        [⟨"user", "hi"⟩, ⟨"assistant", "hello"⟩, ⟨"user", "there"⟩] [] (fun _ => none)
      = some (Json.obj
          [("inputText", Json.str "hi there "),
           ("textGenerationConfig", Json.obj
             [("maxTokenCount", Json.num 2048),
              ("stopSequences", Json.arr []),
              ("temperature", Json.num (1/2))])]) :=
  ⟨amazonPrompt_eq_userSpacePrompt messages, rfl, rfl⟩

/-- C8: for every generation-parameter dict and image oracle, each of the
seven families formats the empty turn list without failing: the six known
families produce their full payload with an empty prompt or empty
messages array, the unknown family produces the empty payload, and the
top-level formatter agrees with this per-family dispatch on every model
identifier. -/
theorem c8_format_empty_turns (body : List (String × Json)) (fetch : Json → Option String) :
    formatFor .amazon [] body fetch
      = some (Json.obj
          [("inputText", Json.str ""),
           ("textGenerationConfig", Json.obj
             [("maxTokenCount", bodyGet body "max_tokens" (Json.num 2048)),
              ("stopSequences", Json.arr []),
              ("temperature", bodyGet body "temperature" (Json.num (1/2)))])]) ∧
    formatFor .anthropic [] body fetch
      = some (Json.obj
          [("anthropic_version", Json.str "bedrock-2023-05-31"),
           ("max_tokens", bodyGet body "max_tokens" (Json.num 2048)),
           ("messages", Json.arr []),
           ("temperature", bodyGet body "temperature" (Json.num (1/2)))]) ∧
    formatFor .ai21 [] body fetch
      = some (Json.obj
          [("prompt", Json.str ""),
           ("temperature", bodyGet body "temperature" (Json.num (1/2))),
           ("maxTokens", bodyGet body "max_tokens" (Json.num 2048))]) ∧
    formatFor .cohere [] body fetch
      = some (Json.obj
          [("prompt", Json.str ""),
           ("temperature", bodyGet body "temperature" (Json.num (1/2))),
           ("max_tokens", bodyGet body "max_tokens" (Json.num 2048))]) ∧
    formatFor .meta [] body fetch
      = some (Json.obj
          [("prompt", Json.str ""),
           ("temperature", bodyGet body "temperature" (Json.num (1/2))),
           ("max_gen_len", bodyGet body "max_tokens" (Json.num 2048))]) ∧
    formatFor .mistral [] body fetch
      = some (Json.obj
          [("prompt", Json.str ""),
           ("max_tokens", bodyGet body "max_tokens" (Json.num 2048)),
           ("temperature", bodyGet body "temperature" (Json.num (1/2)))]) ∧
    formatFor .unknown [] body fetch = none ∧
    (∀ model : String, format_message model [] body fetch = formatFor (classify model) [] body fetch) :=
  ⟨rfl, rfl, rfl, rfl, rfl, rfl, rfl,
   fun model => format_message_classify model [] body fetch⟩

/-- C9: the classification the dispatch chains implement is exactly the
first marker match in the fixed order amazon, anthropic, ai21, cohere,
meta, mistral; both the formatter and the whole-response extractor follow
that classification; in particular an identifier containing both the meta
and the mistral markers is formatted and decoded as Meta. -/
theorem c9_first_marker_chain (model : String) (messages : List Message)
    (body : List (String × Json)) (fetch : Json → Option String) (doc : Json) :
    classify model = ((familyChain.find? fun f => strContains model (marker f)).getD .unknown) ∧
    format_message model messages body fetch = formatFor (classify model) messages body fetch ∧
    extract_output doc model = extractFor (classify model) doc ∧
    classify "meta.mistral-7b" = Family.meta ∧
    format_message "meta.mistral-7b" messages body fetch = formatFor Family.meta messages body fetch ∧
    extract_output doc "meta.mistral-7b" = extractFor Family.meta doc := by
  refine ⟨?_, format_message_classify model messages body fetch,
    extract_output_classify doc model, rfl,
    format_message_classify "meta.mistral-7b" messages body fetch,
    extract_output_classify doc "meta.mistral-7b"⟩
  unfold classify familyChain
  cases hA : strContains model "amazon" <;>
    cases hB : strContains model "anthropic" <;>
      cases hC : strContains model "ai21" <;>
        cases hD : strContains model "cohere" <;>
          cases hE : strContains model "meta" <;>
            cases hF : strContains model "mistral" <;>
              simp [List.find?, marker, hA, hB, hC, hD, hE, hF]

/-- C10 counterexample: the identifier mistral.meta-x contains the meta
marker, whole-response decoding classifies it as Meta, and meta is not
the first dot-segment; the claim then predicts the default verbatim
streaming branch, but the first segment equals mistral, so the Mistral
streaming branch decodes the event instead of yielding the raw chunk
text. -/
theorem c10_stream_dispatch_counterexample :
    classify "mistral.meta-x" = Family.meta ∧
    providerToken "mistral.meta-x" = "mistral" ∧
    streamDeltas (providerToken "mistral.meta-x")
        [⟨"rawbytes", some (Json.obj [("outputs", Json.arr [Json.obj [("text", Json.str "hi")]])])⟩]
      = ([Json.str "hi"], none) ∧
    streamDeltas (providerToken "mistral.meta-x")
        [⟨"rawbytes", some (Json.obj [("outputs", Json.arr [Json.obj [("text", Json.str "hi")]])])⟩]
      ≠ ([Json.str "rawbytes"], none) := by
  refine ⟨rfl, rfl, rfl, ?_⟩
  intro h
  rw [show streamDeltas (providerToken "mistral.meta-x")
        [⟨"rawbytes", some (Json.obj [("outputs", Json.arr [Json.obj [("text", Json.str "hi")]])])⟩]
      = ([Json.str "hi"], none) from rfl] at h
  have h2 := congrArg Prod.fst h
  simp at h2

/-- C10 amended: the streaming decoder dispatches by exact equality of the
first dot-separated segment against the four streaming keys; whenever
that segment is none of anthropic, mistral, cohere or meta, the default
branch emits every chunk verbatim as UTF-8 text — even when the model
identifier is classified to a known family by substring, which
whole-response extraction keeps following. -/
theorem c10_stream_dispatch_exact (model : String) (events : List Chunk)
    (doc : Json) (f : Family)
    (hf : classify model = f)
    (htok : providerToken model ∉ streamKeys) :
    streamDeltas (providerToken model) events
      = (events.map (fun c => Json.str c.text), none) ∧
    extract_output doc model = extractFor f doc := by
  simp only [streamKeys, List.mem_cons, List.not_mem_nil, or_false, not_or] at htok
  obtain ⟨h1, h2, h3, h4⟩ := htok
  refine ⟨streamDeltas_default _ events h1 h2 h3 h4, ?_⟩
  rw [extract_output_classify, hf]

/-- Witness for the amended C10 at a region-prefixed Anthropic model. -/
theorem c10_stream_dispatch_exact_witness :
    streamDeltas (providerToken "us.anthropic.claude-3") [⟨"x", none⟩] = ([Json.str "x"], none) ∧
    extract_output (Json.obj [("content", Json.arr [Json.obj [("text", Json.str "ok")]])])
        "us.anthropic.claude-3"
      = extractFor Family.anthropic
          (Json.obj [("content", Json.arr [Json.obj [("text", Json.str "ok")]])]) :=
  c10_stream_dispatch_exact "us.anthropic.claude-3" [⟨"x", none⟩]
    (Json.obj [("content", Json.arr [Json.obj [("text", Json.str "ok")]])])
    Family.anthropic rfl (by decide)

end Bedrock
